import Mathlib

/-!
Shallow embedding of `app/kudos/management/commands/sync_kudos.py`.

The command syncs a local token database with an Ethereum kudos contract
using one of three strategies (`filter`, `id`, `opensea`).  External
collaborators (the chain RPC client, the HTTP client, the Django ORM store)
are modelled as an abstract `World` record; the observable calls the script
makes into them are recorded as a trace of `Event`s, and Python exceptions
are modelled by the `PyError` type.  Each embedded function returns the
trace of external calls it performed together with the error it raised,
if any.
-/

/-- Python exception kinds raised by the script. -/
inductive PyError where
  | runtimeError (msg : String)
  | valueError (msg : String)
  | typeError (msg : String)
  | nameError (msg : String)
  | httpError (status : Nat)
  | keyError (msg : String)
deriving DecidableEq, Repr

/-- The `fromBlock` argument of a transfer-event filter: either a symbolic
string marker (`earliest` / `latest`) or a concrete block number. -/
inductive FromBlock where
  | str (s : String)
  | num (n : Int)
deriving DecidableEq, Repr

/-- One entry returned by the Transfer event filter. -/
structure TransferEvent where
  blockNumber : Int
  tokenId : Int
  transactionHash : String
deriving DecidableEq, Repr

/-- The response of one OpenSea `/events` request for a single token id:
its HTTP status and, when present, the pair
(`asset_events[0].asset.token_id`, `asset_events[0].transaction.transaction_hash`).
`firstEvent = none` models a payload from which those fields are missing. -/
structure OSResponse where
  status : Nat
  firstEvent : Option (String × String)
deriving DecidableEq, Repr

/-- Observable calls the script makes into its external collaborators. -/
inductive Event where
  | rpcTotalSupply
  | rpcGetBlockLatest
  | rpcCreateFilter (fromBlock : FromBlock)
  | httpGet (tokenId : Int)
  | storeMaxId
  | upsert (kudosId : Int) (txid : Option String)
deriving DecidableEq, Repr

/-- The external world the command runs against: the chain state, the web3
library version, the store contents, the event filter results and the
per-token OpenSea responses. -/
structure World where
  totalSupply : Int
  latestBlockNumber : Int
  web3Version : String
  maxKnownId : Option Int
  getEntries : FromBlock → List TransferEvent
  http : Int → OSResponse

/-- Python `str.isdigit` restricted to ASCII digits. -/
def pyIsDigit (s : String) : Bool :=
  s ≠ "" && s.toList.all Char.isDigit

/-- Interpret a digit string as a natural number. -/
def digitsToNat (s : String) : Nat :=
  s.toList.foldl (fun acc c => acc * 10 + (c.toNat - Char.toNat '0')) 0

/-- Python `int(s)` for a string argument: optional leading minus sign and
digits; anything else raises `ValueError`. -/
def pyIntOfString (s : String) : Except PyError Int :=
  if pyIsDigit s then .ok (digitsToNat s)
  else if s.startsWith "-" && pyIsDigit (s.drop 1) then
    .ok (-(digitsToNat (s.drop 1) : Int))
  else .error (.valueError "invalid literal for int with base 10")

/-- Dynamically typed value held by the local variable `start_id` in
`handle`: a string (from `--start`), an int (from `--rewind` or a non-empty
store), Python `None` (catch-up on an empty store), or unbound (no cursor
option was truthy). -/
inductive PyVal where
  | str (s : String)
  | int (n : Int)
  | none
  | unbound
deriving DecidableEq, Repr

/-- Python `int(start_id)` on the dynamically typed `start_id`. -/
def pyIntCoerce : PyVal → Except PyError Int
  | .str s => pyIntOfString s
  | .int n => .ok n
  | .none => .error (.typeError "int argument must not be NoneType")
  | .unbound => .error (.nameError "start_id is not defined")

/-- Truthiness of the optional `--start` string argument. -/
def pyTruthyStr : Option String → Bool
  | Option.none => false
  | some s => s ≠ ""

/-- Truthiness of the optional `--rewind` int argument. -/
def pyTruthyInt : Option Int → Bool
  | Option.none => false
  | some n => n ≠ 0

/-- Python `range(start, stop)` over integers. -/
def pyRange (start stop : Int) : List Int :=
  (List.range (stop - start).toNat).map (fun (i : Nat) => start + (i : Int))

/-- The loop body of `id_sync`: a do-while loop that upserts the current
counter, increments it, and stops once the counter exceeds `endId`. -/
def idSyncLoop (kudosEnum endId : Int) : List Event :=
  Event.upsert kudosEnum Option.none ::
    (if kudosEnum + 1 > endId then [] else idSyncLoop (kudosEnum + 1) endId)
termination_by (endId - kudosEnum).toNat
decreasing_by simp_wf; omega

/-- Fuel-indexed version of the `id_sync` loop, used to express that the
loop terminates: `none` means the fuel ran out before the loop exited. -/
def idSyncLoopFuel : Nat → Int → Int → Option (List Event)
  | 0, _, _ => Option.none
  | Nat.succ fuel, kudosEnum, endId =>
    if kudosEnum + 1 > endId then some [Event.upsert kudosEnum Option.none]
    else (idSyncLoopFuel fuel (kudosEnum + 1) endId).map
      (fun rest => Event.upsert kudosEnum Option.none :: rest)

/-- Embedding of `Command.id_sync`: reads the total supply once, then runs the do-while
upsert loop from `start_id` with that fixed upper bound. -/
def id_sync (w : World) (start_id : Int) : List Event :=
  Event.rpcTotalSupply :: idSyncLoop start_id w.totalSupply

/-- Embedding of `Command.filter_sync`: creates a Transfer event filter from `fromBlock`
and upserts `(tokenId, transactionHash)` for every returned entry, in order.
It raises nothing of its own. -/
def filter_sync (w : World) (fromBlock : FromBlock) : List Event × Option PyError :=
  (Event.rpcCreateFilter fromBlock ::
    (w.getEntries fromBlock).map (fun e => Event.upsert e.tokenId (some e.transactionHash)),
   Option.none)

/-- The per-token processing of one OpenSea response:
`raise_for_status` first, then extraction of
`asset_events[0].asset.token_id` and the transaction hash, then `int()` on
the token id.  The result is the upsert key and txid, or the raised error. -/
def respResult (r : OSResponse) : Except PyError (Int × String) :=
  if 400 ≤ r.status then .error (.httpError r.status)
  else
    match r.firstEvent with
    | Option.none => .error (.keyError "asset_events")
    | some (assetTokenId, txHash) =>
      match pyIntOfString assetTokenId with
      | .error e => .error e
      | .ok n => .ok (n, txHash)

/-- Whether the per-token processing succeeds. -/
def respOk (r : Except PyError (Int × String)) : Bool :=
  match r with
  | .ok _ => true
  | .error _ => false

/-- The loop of `opensea_sync` over the token id range: each iteration
performs the HTTP GET, and either aborts with the raised error or upserts
the extracted `(token_id, transaction_hash)` and continues. -/
def openseaLoop (w : World) : List Int → List Event × Option PyError
  | [] => ([], Option.none)
  | tokenId :: rest =>
    match respResult (w.http tokenId) with
    | .error e => ([Event.httpGet tokenId], some e)
    | .ok (n, tx) =>
      let r := openseaLoop w rest
      (Event.httpGet tokenId :: Event.upsert n (some tx) :: r.1, r.2)

/-- Embedding of `Command.opensea_sync`: rejects any network other than rinkeby and
mainnet before any call; otherwise reads the total supply and runs the
per-token loop over `range(start_id, end_id + 1)`. -/
def opensea_sync (network : String) (w : World) (start_id : Int) :
    List Event × Option PyError :=
  if network = "rinkeby" ∨ network = "mainnet" then
    let r := openseaLoop w (pyRange start_id (w.totalSupply + 1))
    (Event.rpcTotalSupply :: r.1, r.2)
  else
    ([], some (.runtimeError "The Open Sea API is only supported for contracts on rinkeby and mainnet."))

/-- Embedding of `Command.handle`: dispatches on the sync method, resolves the cursor
spec (`--start` / `--rewind` / `--catchup`) and invokes the strategy. -/
def handle (network syncmethod : String) (start : Option String)
    (rewind : Option Int) (catchup : Bool) (w : World) :
    List Event × Option PyError :=
  if syncmethod = "filter" then
    if pyTruthyStr start then
      let s := start.getD ""
      if pyIsDigit s then
        ([], some (.runtimeError "This option is unstable if not on web3py 4.7.2.  May crash testrpc."))
      else if s = "earliest" ∨ s = "latest" then
        filter_sync w (FromBlock.str s)
      else
        ([], some (.valueError "--fromBlock must be earliest, or latest"))
    else if pyTruthyInt rewind then
      if w.web3Version ≠ "4.7.2" then
        ([], some (.runtimeError "This option is unstable if not on web3py 4.7.2.  May crash testrpc."))
      else
        let res := filter_sync w (FromBlock.num (w.latestBlockNumber - rewind.getD 0))
        (Event.rpcGetBlockLatest :: res.1, res.2)
    else if catchup then
      ([], some (.valueError "--catchup option is not valid for filter syncing"))
    else
      ([], some (.nameError "fromBlock is not defined"))
  else
    let resolved : List Event × PyVal :=
      if pyTruthyStr start then ([], PyVal.str (start.getD ""))
      else if pyTruthyInt rewind then
        ([Event.rpcTotalSupply], PyVal.int (w.totalSupply - rewind.getD 0))
      else if catchup then
        ([Event.storeMaxId],
          match w.maxKnownId with
          | some m => PyVal.int m
          | Option.none => PyVal.none)
      else ([], PyVal.unbound)
    if syncmethod = "id" then
      match pyIntCoerce resolved.2 with
      | .error e => (resolved.1, some e)
      | .ok n => (resolved.1 ++ id_sync w n, Option.none)
    else if syncmethod = "opensea" then
      match pyIntCoerce resolved.2 with
      | .error e => (resolved.1, some e)
      | .ok n =>
        let r := opensea_sync network w n
        (resolved.1 ++ r.1, r.2)
    else ([], Option.none)

/-- The kudos ids passed to the store upsert, in trace order. -/
def upsertedIds (trace : List Event) : List Int :=
  trace.filterMap (fun e =>
    match e with
    | Event.upsert i _ => some i
    | _ => Option.none)

/-- The inclusive integer interval `[a, max a b]` as the list
`[a, a+1, ..., max a b]` (it is `[a]` when `b < a`). -/
def intRangeIncl (a b : Int) : List Int :=
  (List.range ((b - a).toNat + 1)).map (fun (i : Nat) => a + (i : Int))

/-- Events contributed by one successful opensea iteration for token `j`,
and the GET alone when processing `j` fails. -/
def okIter (w : World) (j : Int) : List Event :=
  match respResult (w.http j) with
  | .ok (n, tx) => [Event.httpGet j, Event.upsert n (some tx)]
  | .error _ => [Event.httpGet j]

/-- Concatenated opensea iteration traces for a list of token ids. -/
def okIters (w : World) : List Int → List Event
  | [] => []
  | j :: js => okIter w j ++ okIters w js

/-- A sample world used to instantiate theorems that carry hypotheses:
total supply 5, latest block 100, a store whose largest known id is 3, an
empty event filter and an OpenSea endpoint that answers 200 for every
token. -/
def sampleWorld : World where
  totalSupply := 5
  latestBlockNumber := 100
  web3Version := "4.7.2"
  maxKnownId := some 3
  getEntries := fun _ => []
  http := fun _ => { status := 200, firstEvent := some ("7", "0xabc") }

/-- A world whose store holds no entities. -/
def emptyStoreWorld : World :=
  { sampleWorld with maxKnownId := Option.none }

/-- A world whose OpenSea endpoint fails with HTTP 500 on token id 2 and
succeeds on every other id. -/
def failingWorld : World where
  totalSupply := 3
  latestBlockNumber := 100
  web3Version := "4.7.2"
  maxKnownId := some 3
  getEntries := fun _ => []
  http := fun t =>
    if t = 2 then { status := 500, firstEvent := Option.none }
    else { status := 200, firstEvent := some ("7", "0xabc") }

/-! ### Supporting lemmas -/

/-- One unfolding of the `id_sync` do-while loop. -/
theorem idSyncLoop_unfold (s e : Int) :
    idSyncLoop s e = Event.upsert s Option.none ::
      (if s + 1 > e then [] else idSyncLoop (s + 1) e) := by
  rw [idSyncLoop]

theorem intRangeIncl_single (a b : Int) (h : b ≤ a) : intRangeIncl a b = [a] := by
  have h0 : (b - a).toNat + 1 = 1 := by omega
  simp [intRangeIncl, h0, List.range_succ]

theorem intRangeIncl_cons (a b : Int) (h : a < b) :
    intRangeIncl a b = a :: intRangeIncl (a + 1) b := by
  have h2 : (b - a).toNat + 1 = ((b - (a + 1)).toNat + 1) + 1 := by omega
  rw [intRangeIncl, intRangeIncl, h2, List.range_succ_eq_map, List.map_cons, List.map_map]
  refine congrArg₂ List.cons (by simp) ?_
  apply List.map_congr_left
  intro i _
  simp only [Function.comp_apply, Nat.succ_eq_add_one]
  push_cast
  ring

theorem idSyncLoop_eq_aux (e : Int) :
    ∀ n : Nat, ∀ s : Int, (e - s).toNat = n →
      idSyncLoop s e = (intRangeIncl s e).map (fun i => Event.upsert i Option.none) := by
  intro n
  induction n with
  | zero =>
    intro s hs
    rw [idSyncLoop_unfold, if_pos (by omega : s + 1 > e),
      intRangeIncl_single s e (by omega), List.map_cons, List.map_nil]
  | succ n ih =>
    intro s hs
    rw [idSyncLoop_unfold, if_neg (by omega : ¬ s + 1 > e), ih (s + 1) (by omega),
      intRangeIncl_cons s e (by omega), List.map_cons]

/-- The `id_sync` loop from `s` with upper bound `e` upserts exactly the
ids `s, s+1, ..., max s e`. -/
theorem idSyncLoop_eq (s e : Int) :
    idSyncLoop s e = (intRangeIncl s e).map (fun i => Event.upsert i Option.none) :=
  idSyncLoop_eq_aux e (e - s).toNat s rfl

theorem mem_intRangeIncl (a b i : Int) :
    i ∈ intRangeIncl a b ↔ a ≤ i ∧ i ≤ max a b := by
  simp only [intRangeIncl, List.mem_map, List.mem_range]
  constructor
  · rintro ⟨j, hj, rfl⟩
    omega
  · rintro ⟨h1, h2⟩
    exact ⟨(i - a).toNat, by omega, by omega⟩

theorem intRangeIncl_nodup (a b : Int) : (intRangeIncl a b).Nodup := by
  apply List.Nodup.map
  · intro x y hxy
    simp only [] at hxy
    omega
  · exact List.nodup_range _

theorem intRangeIncl_chain (a b : Int) : (intRangeIncl a b).Chain' (· < ·) := by
  rw [intRangeIncl, List.chain'_map, List.chain'_range_succ]
  intro m _
  omega

theorem upsertedIds_map_upsert (l : List Int) :
    upsertedIds (l.map (fun i => Event.upsert i Option.none)) = l := by
  induction l with
  | nil => rfl
  | cons x xs ih => simp [upsertedIds, List.filterMap_cons] at ih ⊢; exact ih

/-- The ids upserted by `id_sync w s` are exactly `s, s+1, ..., max s supply`. -/
theorem upsertedIds_id_sync (w : World) (s : Int) :
    upsertedIds (id_sync w s) = intRangeIncl s w.totalSupply := by
  simp only [id_sync, upsertedIds, List.filterMap_cons]
  rw [← upsertedIds, idSyncLoop_eq, upsertedIds_map_upsert]

theorem intRangeIncl_head (a b : Int) : (intRangeIncl a b).head? = some a := by
  by_cases h : a < b
  · rw [intRangeIncl_cons a b h]; rfl
  · rw [intRangeIncl_single a b (by omega)]; rfl

theorem intRangeIncl_length (a b : Int) :
    (intRangeIncl a b).length = (b - a).toNat + 1 := by
  simp [intRangeIncl]

theorem intRangeIncl_getLast_aux (b : Int) :
    ∀ n : Nat, ∀ a : Int, (b - a).toNat = n →
      (intRangeIncl a b).getLast? = some (max a b) := by
  intro n
  induction n with
  | zero =>
    intro a ha
    rw [intRangeIncl_single a b (by omega)]
    have hm : max a b = a := by omega
    rw [hm]
    rfl
  | succ n ih =>
    intro a ha
    have hlt : a < b := by omega
    rw [intRangeIncl_cons a b hlt]
    have h2 := ih (a + 1) (by omega)
    have hm : max (a + 1) b = max a b := by omega
    rw [hm] at h2
    exact Option.mem_def.mp
      (List.mem_getLast?_cons (Option.mem_def.mpr h2))

theorem intRangeIncl_getLast (a b : Int) :
    (intRangeIncl a b).getLast? = some (max a b) :=
  intRangeIncl_getLast_aux b (b - a).toNat a rfl

theorem idSyncLoop_length (s e : Int) :
    (idSyncLoop s e).length = (e - s).toNat + 1 := by
  rw [idSyncLoop_eq, List.length_map, intRangeIncl_length]

theorem idSyncLoopFuel_spec (e : Int) :
    ∀ n : Nat, ∀ fuel : Nat, ∀ s : Int, (e - s).toNat = n → n + 1 ≤ fuel →
      idSyncLoopFuel fuel s e = some (idSyncLoop s e) := by
  intro n
  induction n with
  | zero =>
    intro fuel s hs hf
    cases fuel with
    | zero => omega
    | succ f =>
      rw [idSyncLoopFuel, if_pos (by omega : s + 1 > e),
        idSyncLoop_unfold, if_pos (by omega : s + 1 > e)]
  | succ n ih =>
    intro fuel s hs hf
    cases fuel with
    | zero => omega
    | succ f =>
      rw [idSyncLoopFuel, if_neg (by omega : ¬ s + 1 > e),
        idSyncLoop_unfold, if_neg (by omega : ¬ s + 1 > e),
        ih f (s + 1) (by omega) (by omega)]
      rfl

theorem upsertedIds_id_sync_head (w : World) (s : Int) :
    (upsertedIds (id_sync w s)).head? = some s := by
  rw [upsertedIds_id_sync, intRangeIncl_head]

/-- C1: for every start id at most the total supply observed by the single
read at the start of the run, `id_sync` calls the store upsert exactly once
for each id in `[start, supply]` — the upsert key list equals the inclusive
interval, is duplicate-free — and in strictly increasing order, beginning
at the start id and ending at the supply. -/
theorem C1_id_sync_enumerates_each_id_once_in_order (w : World) (s : Int)
    (h : s ≤ w.totalSupply) :
    upsertedIds (id_sync w s) = intRangeIncl s w.totalSupply ∧
    (upsertedIds (id_sync w s)).Nodup ∧
    (upsertedIds (id_sync w s)).Chain' (· < ·) ∧
    (upsertedIds (id_sync w s)).head? = some s ∧
    (upsertedIds (id_sync w s)).getLast? = some w.totalSupply := by
  refine ⟨upsertedIds_id_sync w s, ?_, ?_, upsertedIds_id_sync_head w s, ?_⟩
  · rw [upsertedIds_id_sync]; exact intRangeIncl_nodup s w.totalSupply
  · rw [upsertedIds_id_sync]; exact intRangeIncl_chain s w.totalSupply
  · rw [upsertedIds_id_sync, intRangeIncl_getLast]
    have hm : max s w.totalSupply = w.totalSupply := by omega
    rw [hm]

theorem C1_witness :
    (2 : Int) ≤ sampleWorld.totalSupply ∧
    (upsertedIds (id_sync sampleWorld 2) = intRangeIncl 2 sampleWorld.totalSupply ∧
     (upsertedIds (id_sync sampleWorld 2)).Nodup ∧
     (upsertedIds (id_sync sampleWorld 2)).Chain' (· < ·) ∧
     (upsertedIds (id_sync sampleWorld 2)).head? = some 2 ∧
     (upsertedIds (id_sync sampleWorld 2)).getLast? = some sampleWorld.totalSupply) :=
  ⟨by decide, C1_id_sync_enumerates_each_id_once_in_order sampleWorld 2 (by decide)⟩

/-- C8: the enumeration loop terminates for every start and every fixed
upper bound: with any fuel of at least `(end - start).toNat + 1` steps the
fuel-indexed loop finishes (returns `some`), the iteration count is exactly
`(end - start).toNat + 1`, every upserted id stays at or below
`max start end`, and a run depends only on the supply value observed at the
single initial total-supply read: two worlds with the same observed supply
produce identical `id_sync` traces. -/
theorem C8_id_sync_terminates_with_stable_bound (w w2 : World) (s : Int)
    (fuel : Nat) (hw : w.totalSupply = w2.totalSupply)
    (hfuel : (w.totalSupply - s).toNat + 1 ≤ fuel) :
    idSyncLoopFuel fuel s w.totalSupply = some (idSyncLoop s w.totalSupply) ∧
    (idSyncLoop s w.totalSupply).length = (w.totalSupply - s).toNat + 1 ∧
    (∀ i ∈ upsertedIds (id_sync w s), i ≤ max s w.totalSupply) ∧
    id_sync w s = id_sync w2 s := by
  refine ⟨idSyncLoopFuel_spec w.totalSupply (w.totalSupply - s).toNat fuel s rfl hfuel,
    idSyncLoop_length s w.totalSupply, ?_, ?_⟩
  · intro i hi
    rw [upsertedIds_id_sync] at hi
    exact ((mem_intRangeIncl s w.totalSupply i).mp hi).2
  · rw [id_sync, id_sync, hw]

theorem C8_witness :
    sampleWorld.totalSupply = sampleWorld.totalSupply ∧
    (sampleWorld.totalSupply - 2).toNat + 1 ≤ 7 ∧
    (idSyncLoopFuel 7 2 sampleWorld.totalSupply
        = some (idSyncLoop 2 sampleWorld.totalSupply) ∧
      (idSyncLoop 2 sampleWorld.totalSupply).length
        = (sampleWorld.totalSupply - 2).toNat + 1 ∧
      (∀ i ∈ upsertedIds (id_sync sampleWorld 2), i ≤ max 2 sampleWorld.totalSupply) ∧
      id_sync sampleWorld 2 = id_sync sampleWorld 2) :=
  ⟨rfl, by decide,
    C8_id_sync_terminates_with_stable_bound sampleWorld sampleWorld 2 7 rfl (by decide)⟩

/-- C10: the enumeration loop tests its bound only after the body, so even
for a start strictly above the observed total supply `id_sync` performs
exactly one upsert, for the start id itself; the first upsert of any run is
unconditionally for the start id. -/
theorem C10_id_sync_first_upsert_unconditional (w : World) (s : Int)
    (h : w.totalSupply < s) :
    id_sync w s = [Event.rpcTotalSupply, Event.upsert s Option.none] ∧
    (upsertedIds (id_sync w s)).head? = some s := by
  constructor
  · rw [id_sync, idSyncLoop_unfold, if_pos (by omega : s + 1 > w.totalSupply)]
  · exact upsertedIds_id_sync_head w s

theorem C10_witness :
    sampleWorld.totalSupply < 9 ∧
    (id_sync sampleWorld 9 = [Event.rpcTotalSupply, Event.upsert 9 Option.none] ∧
      (upsertedIds (id_sync sampleWorld 9)).head? = some 9) :=
  ⟨by decide, C10_id_sync_first_upsert_unconditional sampleWorld 9 (by decide)⟩

/-- C7: a `filter_sync` run whose event filter returns no entries performs
no store upsert and raises no error: its trace is the single filter
creation call. -/
theorem C7_filter_sync_empty_events_noop (w : World) (fb : FromBlock)
    (h : w.getEntries fb = []) :
    filter_sync w fb = ([Event.rpcCreateFilter fb], Option.none) := by
  rw [filter_sync, h]
  rfl

theorem C7_witness :
    sampleWorld.getEntries (FromBlock.str "latest") = [] ∧
    filter_sync sampleWorld (FromBlock.str "latest")
      = ([Event.rpcCreateFilter (FromBlock.str "latest")], Option.none) :=
  ⟨rfl, C7_filter_sync_empty_events_noop sampleWorld (FromBlock.str "latest") rfl⟩

/-- C4: resolving `--catchup` when the largest id known to the store is `M`
starts the run at `M` itself: `handle` invokes `id_sync` with start `M`
after the single store max-id read, and the first upserted id is `M`, not
`M + 1`. -/
theorem C4_catchup_starts_at_max_known_id (w : World) (network : String)
    (M : Int) (h : w.maxKnownId = some M) :
    handle network "id" Option.none Option.none true w
      = (Event.storeMaxId :: id_sync w M, Option.none) ∧
    (upsertedIds (handle network "id" Option.none Option.none true w).1).head?
      = some M := by
  have hmain : handle network "id" Option.none Option.none true w
      = (Event.storeMaxId :: id_sync w M, Option.none) := by
    simp [handle, pyTruthyStr, pyTruthyInt, h, pyIntCoerce]
  refine ⟨hmain, ?_⟩
  rw [hmain]
  simpa [upsertedIds] using upsertedIds_id_sync_head w M

theorem C4_witness :
    sampleWorld.maxKnownId = some 3 ∧
    (handle "mainnet" "id" Option.none Option.none true sampleWorld
        = (Event.storeMaxId :: id_sync sampleWorld 3, Option.none) ∧
      (upsertedIds (handle "mainnet" "id" Option.none Option.none true sampleWorld).1).head?
        = some 3) :=
  ⟨rfl, C4_catchup_starts_at_max_known_id sampleWorld "mainnet" 3 rfl⟩

/-- C9: with an empty store, `--catchup` resolves `start_id` to Python
`None`, and the `int(start_id)` conversion for both the `id` and the
`opensea` strategy raises a `TypeError` after the store max-id read but
before any upsert: the trace is the single store read and the run aborts. -/
theorem C9_catchup_empty_store_type_error (w : World) (network : String)
    (h : w.maxKnownId = Option.none) :
    handle network "id" Option.none Option.none true w
      = ([Event.storeMaxId], some (PyError.typeError "int argument must not be NoneType")) ∧
    handle network "opensea" Option.none Option.none true w
      = ([Event.storeMaxId], some (PyError.typeError "int argument must not be NoneType")) := by
  constructor <;> simp [handle, pyTruthyStr, pyTruthyInt, h, pyIntCoerce]

theorem C9_witness :
    emptyStoreWorld.maxKnownId = Option.none ∧
    (handle "mainnet" "id" Option.none Option.none true emptyStoreWorld
        = ([Event.storeMaxId], some (PyError.typeError "int argument must not be NoneType")) ∧
      handle "mainnet" "opensea" Option.none Option.none true emptyStoreWorld
        = ([Event.storeMaxId], some (PyError.typeError "int argument must not be NoneType"))) :=
  ⟨rfl, C9_catchup_empty_store_type_error emptyStoreWorld "mainnet" rfl⟩

/-- C2 counterexample: with head/supply `H = 5` and rewind `R = 7 > H`, the
run is NOT rejected: `handle` completes without error and the id strategy
is invoked with the negative start `H - R = -2`, upserting id `-2`. -/
theorem C2_counterexample_negative_start_not_rejected :
    (handle "mainnet" "id" Option.none (some 7) false sampleWorld).2 = Option.none ∧
    Event.upsert (-2) Option.none
      ∈ (handle "mainnet" "id" Option.none (some 7) false sampleWorld).1 := by
  constructor
  · rfl
  · simp [handle, id_sync, idSyncLoop_unfold, sampleWorld, pyTruthyStr, pyTruthyInt,
      pyIntCoerce]

/-- C2 amended: for rewind `R` (nonzero, as a zero flag value is falsy and
skips the branch), `handle` resolves the `--rewind` cursor-spec to
`H - R` on both paths — on the id path `H` is the queried total supply and
the resolved start is `totalSupply - R`, and on the filter path (under its
web3py 4.7.2 version gate) `H` is the latest block number and the resolved
`fromBlock` is `latestBlock - R` — but a negative result (`R > H`) is not
rejected on either path: the run proceeds to invoke `id_sync` with start
`H - R` and finishes without error, and proceeds to invoke `filter_sync`
with `fromBlock = H - R`. -/
theorem C2_rewind_resolves_to_head_minus_rewind (w : World)
    (network : String) (r : Int) (hr : r ≠ 0)
    (hv : w.web3Version = "4.7.2") :
    handle network "id" Option.none (some r) false w
      = (Event.rpcTotalSupply :: id_sync w (w.totalSupply - r), Option.none) ∧
    (upsertedIds (handle network "id" Option.none (some r) false w).1).head?
      = some (w.totalSupply - r) ∧
    handle network "filter" Option.none (some r) false w
      = (Event.rpcGetBlockLatest
          :: (filter_sync w (FromBlock.num (w.latestBlockNumber - r))).1,
         (filter_sync w (FromBlock.num (w.latestBlockNumber - r))).2) := by
  have hmain : handle network "id" Option.none (some r) false w
      = (Event.rpcTotalSupply :: id_sync w (w.totalSupply - r), Option.none) := by
    simp [handle, pyTruthyStr, pyTruthyInt, hr, pyIntCoerce]
  refine ⟨hmain, ?_, ?_⟩
  · rw [hmain]
    simpa [upsertedIds] using upsertedIds_id_sync_head w (w.totalSupply - r)
  · simp [handle, pyTruthyStr, pyTruthyInt, hr, hv]

theorem C2_witness :
    (7 : Int) ≠ 0 ∧
    sampleWorld.web3Version = "4.7.2" ∧
    (handle "mainnet" "id" Option.none (some 7) false sampleWorld
        = (Event.rpcTotalSupply :: id_sync sampleWorld (sampleWorld.totalSupply - 7),
           Option.none) ∧
      (upsertedIds (handle "mainnet" "id" Option.none (some 7) false sampleWorld).1).head?
        = some (sampleWorld.totalSupply - 7) ∧
      handle "mainnet" "filter" Option.none (some 7) false sampleWorld
        = (Event.rpcGetBlockLatest
            :: (filter_sync sampleWorld
                (FromBlock.num (sampleWorld.latestBlockNumber - 7))).1,
           (filter_sync sampleWorld
              (FromBlock.num (sampleWorld.latestBlockNumber - 7))).2)) :=
  ⟨by decide, rfl,
    C2_rewind_resolves_to_head_minus_rewind sampleWorld "mainnet" 7 (by decide) rfl⟩

/-- C6 counterexample: a concrete block number passed as `--start` to the
filter strategy does not run the event sync: it raises a `RuntimeError`
unconditionally. -/
theorem C6_counterexample_digit_start_raises :
    handle "mainnet" "filter" (some "5") Option.none false sampleWorld
      = ([], some (PyError.runtimeError
          "This option is unstable if not on web3py 4.7.2.  May crash testrpc.")) := by
  rfl

/-- C6 amended: the filter strategy accepts only the symbolic markers
`earliest` and `latest` through `--start`; a digit-string block number
raises a `RuntimeError`, and any other non-empty string raises a
`ValueError`.  Only the two markers reach `filter_sync`. -/
theorem C6_filter_start_accepts_only_symbolic_markers (w : World)
    (network s : String) (h : s ≠ "") :
    handle network "filter" (some s) Option.none false w
      = (if pyIsDigit s then
          ([], some (PyError.runtimeError
            "This option is unstable if not on web3py 4.7.2.  May crash testrpc."))
        else if s = "earliest" ∨ s = "latest" then
          filter_sync w (FromBlock.str s)
        else
          ([], some (PyError.valueError "--fromBlock must be earliest, or latest"))) := by
  simp [handle, pyTruthyStr, h]

theorem C6_witness :
    "earliest" ≠ "" ∧
    handle "mainnet" "filter" (some "earliest") Option.none false sampleWorld
      = (if pyIsDigit "earliest" then
          ([], some (PyError.runtimeError
            "This option is unstable if not on web3py 4.7.2.  May crash testrpc."))
        else if "earliest" = "earliest" ∨ "earliest" = "latest" then
          filter_sync sampleWorld (FromBlock.str "earliest")
        else
          ([], some (PyError.valueError "--fromBlock must be earliest, or latest"))) :=
  ⟨by decide,
    C6_filter_start_accepts_only_symbolic_markers sampleWorld "mainnet" "earliest" (by decide)⟩

/-- C3 counterexample: the opensea strategy on localhost combined with
`--rewind` performs a total-supply RPC read (I/O) before its configuration
error is raised, refuting "raises before performing any I/O". -/
theorem C3_counterexample_io_before_config_error :
    handle "localhost" "opensea" Option.none (some 1) false sampleWorld
      = ([Event.rpcTotalSupply], some (PyError.runtimeError
          "The Open Sea API is only supported for contracts on rinkeby and mainnet.")) := by
  rfl

theorem opensea_sync_localhost (w : World) (n : Int) :
    opensea_sync "localhost" w n
      = ([], some (PyError.runtimeError
          "The Open Sea API is only supported for contracts on rinkeby and mainnet.")) := by
  simp [opensea_sync]

/-- C3 amended: invalid configurations abort with a configuration error and
never reach a store write — the filter strategy combined with `--catchup`
raises a `ValueError` before any I/O, and the opensea strategy on localhost
always errors with zero upserts — but the opensea/localhost error is raised
only inside the strategy, after cursor resolution, which with `--rewind`
already performs a total-supply RPC read (see the counterexample). -/
theorem C3_invalid_config_errors_without_store_writes (w : World)
    (network : String) (start : Option String) (rewind : Option Int)
    (catchup : Bool) :
    handle network "filter" Option.none Option.none true w
      = ([], some (PyError.valueError "--catchup option is not valid for filter syncing")) ∧
    (handle "localhost" "opensea" start rewind catchup w).2.isSome = true ∧
    upsertedIds (handle "localhost" "opensea" start rewind catchup w).1 = [] := by
  refine ⟨by simp [handle, pyTruthyStr, pyTruthyInt], ?_⟩
  by_cases h1 : pyTruthyStr start
  · cases hc : pyIntOfString (start.getD "") with
    | error e =>
      simp [handle, h1, pyIntCoerce, hc, upsertedIds]
    | ok n =>
      simp [handle, h1, pyIntCoerce, hc, opensea_sync_localhost, upsertedIds]
  · by_cases h2 : pyTruthyInt rewind
    · simp [handle, h1, h2, pyIntCoerce, opensea_sync_localhost, upsertedIds]
    · by_cases h3 : catchup
      · cases hm : w.maxKnownId with
        | none =>
          simp [handle, h1, h2, h3, hm, pyIntCoerce, upsertedIds]
        | some m =>
          simp [handle, h1, h2, h3, hm, pyIntCoerce, opensea_sync_localhost, upsertedIds]
      · simp [handle, h1, h2, h3, pyIntCoerce, upsertedIds]

theorem pyRange_cons (a b : Int) (h : a < b) :
    pyRange a b = a :: pyRange (a + 1) b := by
  have h2 : (b - a).toNat = ((b - (a + 1)).toNat) + 1 := by omega
  rw [pyRange, pyRange, h2, List.range_succ_eq_map, List.map_cons, List.map_map]
  refine congrArg₂ List.cons (by simp) ?_
  apply List.map_congr_left
  intro i _
  simp only [Function.comp_apply, Nat.succ_eq_add_one]
  push_cast
  ring

theorem pyRange_append (a b c : Int) (hab : a ≤ b) (hbc : b ≤ c) :
    pyRange a c = pyRange a b ++ pyRange b c := by
  have h2 : (c - a).toNat = (b - a).toNat + (c - b).toNat := by omega
  rw [pyRange, h2, List.range_add, List.map_append, List.map_map]
  refine congrArg₂ List.append rfl ?_
  rw [pyRange]
  apply List.map_congr_left
  intro i _
  simp only [Function.comp_apply]
  push_cast
  omega

theorem mem_pyRange (a b i : Int) : i ∈ pyRange a b ↔ a ≤ i ∧ i < b := by
  simp only [pyRange, List.mem_map, List.mem_range]
  constructor
  · rintro ⟨j, hj, rfl⟩
    omega
  · rintro ⟨h1, h2⟩
    exact ⟨(i - a).toNat, by omega, by omega⟩

theorem openseaLoop_append_bad (w : World) (k : Int) (rest : List Int) :
    ∀ pre : List Int, (∀ j ∈ pre, respOk (respResult (w.http j)) = true) →
      respOk (respResult (w.http k)) = false →
      (openseaLoop w (pre ++ k :: rest)).1 = okIters w pre ++ [Event.httpGet k] ∧
      (openseaLoop w (pre ++ k :: rest)).2.isSome = true := by
  intro pre
  induction pre with
  | nil =>
    intro _ hbad
    cases hr : respResult (w.http k) with
    | error e => simp [openseaLoop, hr, okIters]
    | ok v => simp [respOk, hr] at hbad
  | cons j js ih =>
    intro hgood hbad
    have hj : respOk (respResult (w.http j)) = true := hgood j (by simp)
    cases hr : respResult (w.http j) with
    | error e => simp [respOk, hr] at hj
    | ok v =>
      obtain ⟨n, tx⟩ := v
      have ihr := ih (fun x hx => hgood x (by simp [hx])) hbad
      simp only [List.cons_append, openseaLoop, hr, okIters, okIter]
      constructor
      · simp only [List.append_assoc, List.cons_append, List.nil_append, List.append_eq]
        rw [ihr.1]
      · exact ihr.2

/-- C5: in the opensea strategy, if the per-id processing fails for id `k`
in the run's range (non-success HTTP status, a payload missing the expected
fields, or a non-numeric reported token id) while every earlier id in the
range succeeds, the run aborts at `k`: the trace ends with the GET for `k`,
with no upsert for iteration `k` and nothing at all for later ids, and the
run finishes with a raised error. -/
theorem C5_opensea_failure_aborts_before_next_id (w : World)
    (network : String) (s k : Int)
    (hnet : network = "rinkeby" ∨ network = "mainnet")
    (hs : s ≤ k) (hk : k ≤ w.totalSupply)
    (hbad : respOk (respResult (w.http k)) = false)
    (hgood : ∀ j ∈ pyRange s k, respOk (respResult (w.http j)) = true) :
    (opensea_sync network w s).1
      = Event.rpcTotalSupply :: (okIters w (pyRange s k) ++ [Event.httpGet k]) ∧
    (opensea_sync network w s).2.isSome = true := by
  have hif : opensea_sync network w s
      = (Event.rpcTotalSupply :: (openseaLoop w (pyRange s (w.totalSupply + 1))).1,
         (openseaLoop w (pyRange s (w.totalSupply + 1))).2) := by
    rw [opensea_sync, if_pos hnet]
  have hsplit : pyRange s (w.totalSupply + 1)
      = pyRange s k ++ (k :: pyRange (k + 1) (w.totalSupply + 1)) := by
    rw [pyRange_append s k (w.totalSupply + 1) hs (by omega),
      pyRange_cons k (w.totalSupply + 1) (by omega)]
  have habort := openseaLoop_append_bad w k (pyRange (k + 1) (w.totalSupply + 1))
    (pyRange s k) hgood hbad
  rw [hif, hsplit]
  exact ⟨congrArg (Event.rpcTotalSupply :: ·) habort.1, habort.2⟩

theorem C5_witness :
    ("rinkeby" = "rinkeby" ∨ ("rinkeby" : String) = "mainnet") ∧
    (1 : Int) ≤ 2 ∧
    (2 : Int) ≤ failingWorld.totalSupply ∧
    respOk (respResult (failingWorld.http 2)) = false ∧
    (∀ j ∈ pyRange 1 2, respOk (respResult (failingWorld.http j)) = true) ∧
    ((opensea_sync "rinkeby" failingWorld 1).1
        = Event.rpcTotalSupply :: (okIters failingWorld (pyRange 1 2) ++ [Event.httpGet 2]) ∧
      (opensea_sync "rinkeby" failingWorld 1).2.isSome = true) :=
  ⟨Or.inl rfl, by decide, by decide, by decide, by decide,
    C5_opensea_failure_aborts_before_next_id failingWorld "rinkeby" 1 2
      (Or.inl rfl) (by decide) (by decide) (by decide) (by decide)⟩
